import Mathlib

/-!
# Verification of the response-normalization pipeline of `vibe-coding-gemini`

This file gives a shallow embedding, in Lean 4, of the response-processing
and request-handling logic of the repository:

* `processAIResponse` (netlify/functions/generate-image.js lines 5-35,
  netlify/functions/manipulate-image.js lines 48-77, and the disk-writing
  variant in server.js lines 61-91);
* the request handlers for `/generate-image` and `/manipulate-image`
  (netlify/functions/generate-image.js lines 37-197,
  netlify/functions/manipulate-image.js lines 79-288,
  server.js lines 105-274).

JavaScript values that may be `undefined`/`null` are embedded as `Option`;
JavaScript truthiness on strings (where `""`, `null` and `undefined` are
falsy) is `jsTruthy`; a thrown `TypeError` is the `Except.error` branch.
Asynchronous streaming (`for await` over the chunk stream) is embedded as a
single pass over a finite `List` of chunks, and `Date.now()` is embedded as
an ambient clock `Nat → Nat` giving the millisecond timestamp observed at
the k-th call made during one `processAIResponse` invocation.
-/

namespace VibeGemini

/-- A JavaScript runtime failure.  The only one reachable in the embedded
code is the `TypeError` raised by reading a property of `undefined`. -/
inductive JsError
  | typeError
deriving DecidableEq, Repr

instance {ε α : Type} [DecidableEq ε] [DecidableEq α] : DecidableEq (Except ε α)
  | .error a, .error b =>
      if h : a = b then isTrue (h ▸ rfl)
      else isFalse (fun hc => h (Except.error.inj hc))
  | .error _, .ok _ => isFalse Except.noConfusion
  | .ok _, .error _ => isFalse Except.noConfusion
  | .ok a, .ok b =>
      if h : a = b then isTrue (h ▸ rfl)
      else isFalse (fun hc => h (Except.ok.inj hc))

/-- JavaScript truthiness for an optional string value: `undefined`, `null`
and the empty string are falsy. -/
def jsTruthy : Option String → Bool
  | none => false
  | some s => s ≠ ""

/-- JavaScript `a || b` for a string-valued (possibly absent) `a`:
yields `b` when `a` is `undefined`/`null`/`""`. -/
def jsOr : Option String → String → String
  | none, d => d
  | some s, d => if s = "" then d else s

/-- The `inlineData` object of a streamed response part: base64 payload and
declared media type, either of which may be absent. -/
structure InlineData where
  mimeType : Option String
  data : Option String
deriving DecidableEq, Repr

/-- One element of a candidate's `content.parts` array. -/
structure ChunkPart where
  inlineData : Option InlineData
deriving DecidableEq, Repr

/-- The `content` object of a response candidate; its `parts` array may be
absent. -/
structure Content where
  parts : Option (List ChunkPart)
deriving DecidableEq, Repr

/-- One element of a chunk's `candidates` array. -/
structure Candidate where
  content : Option Content
deriving DecidableEq, Repr

/-- One streamed response chunk: an optional `candidates` array and the
SDK-provided `text` accessor, embedded as an optional string field. -/
structure Chunk where
  candidates : Option (List Candidate)
  text : Option String
deriving DecidableEq, Repr

/-- Models the `mime` package's `getExtension`: the canonical file extension
for a recognized media type (the image types relevant to this service),
`none` (JS `null`) for an unrecognized one. -/
def mimeGetExtension (t : String) : Option String :=
  if t = "image/png" then some "png"
  else if t = "image/jpeg" then some "jpeg"
  else if t = "image/gif" then some "gif"
  else if t = "image/webp" then some "webp"
  else none

/-- JS template-literal interpolation of a possibly-`null` string value:
`null` prints as the four characters `null`. -/
def templateOpt : Option String → String
  | some s => s
  | none => "null"

/-- Line 17 of generate-image.js (line 73 of server.js):
`mime.getExtension(inlineData.mimeType || 'image/png')`. -/
def fileExtensionOf (mimeType : Option String) : Option String :=
  mimeGetExtension (jsOr mimeType "image/png")

/-- The decimal digit characters used by JS number-to-string conversion. -/
def digitChar : Nat → Char
  | 0 => '0'
  | 1 => '1'
  | 2 => '2'
  | 3 => '3'
  | 4 => '4'
  | 5 => '5'
  | 6 => '6'
  | 7 => '7'
  | 8 => '8'
  | 9 => '9'
  | _ => '*'

/-- Decimal rendering of a natural number as a character list, matching JS
template-literal conversion of a non-negative integer. -/
def natToChars (n : Nat) : List Char :=
  if h : n < 10 then [digitChar n]
  else natToChars (n / 10) ++ [digitChar (n % 10)]
decreasing_by exact Nat.div_lt_self (by omega) (by omega)

/-- Decimal rendering of a natural number as a string (JS `${n}`). -/
def natToString (n : Nat) : String :=
  ⟨natToChars n⟩

/-- Line 15 of generate-image.js:
the base filename `${baseFileName}_${Date.now()}_${fileIndex++}`, where `t`
is the value returned by `Date.now()` and `i` the pre-increment index. -/
def mkFileName (base : String) (t i : Nat) : String :=
  base ++ "_" ++ natToString t ++ "_" ++ natToString i

/-- A result object pushed by `processAIResponse`, embedded as a record of
every key any variant ever sets; a key the code does not set on a given
push is `none` (absent in the serialized JSON). -/
structure ResultObj where
  type : String
  data : Option String
  url : Option String
  mimeType : Option String
  filename : Option String
  content : Option String
deriving DecidableEq, Repr

/-- Outcome of the guard on lines 10-12 of generate-image.js:
`if (!chunk.candidates || !chunk.candidates[0].content ||
!chunk.candidates[0].content.parts) continue;`.
A missing `candidates`, a first candidate without `content`, or a `content`
without `parts` makes the guard skip the chunk.  An *empty* `candidates`
array is truthy in JS, so the guard evaluates `chunk.candidates[0].content`,
a property read on `undefined`: a thrown `TypeError`. -/
inductive GuardOutcome
  | skip
  | raise
  | pass
deriving DecidableEq, Repr

/-- Evaluate the guard of lines 10-12 on one chunk. -/
def guardCheck (c : Chunk) : GuardOutcome :=
  match c.candidates with
  | none => .skip
  | some [] => .raise
  | some (c0 :: _) =>
    match c0.content with
    | none => .skip
    | some ct =>
      match ct.parts with
      | none => .skip
      | some _ => .pass

/-- The optional chain of line 14:
`chunk.candidates?.[0]?.content?.parts?.[0]?.inlineData`. -/
def inlineOf (c : Chunk) : Option InlineData :=
  c.candidates >>= List.head? >>= Candidate.content >>= Content.parts
    >>= List.head? >>= ChunkPart.inlineData

/-- The image result pushed on lines 20-25 of generate-image.js for inline
payload `d`, file index `i` and `Date.now()` value `t`. -/
def imageResult (base : String) (t i : Nat) (d : InlineData) : ResultObj :=
  ⟨"image", d.data, none, d.mimeType,
    some (mkFileName base t i ++ "." ++ templateOpt (fileExtensionOf d.mimeType)),
    none⟩

/-- The text result pushed on lines 27-30 of generate-image.js. -/
def mkTextResult (t : String) : ResultObj :=
  ⟨"text", none, none, none, none, some t⟩

/-- The loop body of `processAIResponse`
(netlify/functions/generate-image.js lines 9-32), with the running
`fileIndex` threaded explicitly and `clock i` the value of the `Date.now()`
call made while the index is `i`. -/
def processGo (clock : Nat → Nat) (baseFileName : String) :
    Nat → List Chunk → Except JsError (List ResultObj)
  | _, [] => .ok []
  | fileIndex, chunk :: rest =>
    match guardCheck chunk with
    | .skip => processGo clock baseFileName fileIndex rest
    | .raise => .error .typeError
    | .pass =>
      match inlineOf chunk with
      | some d =>
        (processGo clock baseFileName (fileIndex + 1) rest).map
          (fun rs => imageResult baseFileName (clock fileIndex) fileIndex d :: rs)
      | none =>
        match chunk.text with
        | some t =>
          if t = "" then processGo clock baseFileName fileIndex rest
          else (processGo clock baseFileName fileIndex rest).map
            (fun rs => mkTextResult t :: rs)
        | none => processGo clock baseFileName fileIndex rest

/-- The function `processAIResponse` of netlify/functions/generate-image.js lines 5-35
(identical in manipulate-image.js lines 48-77): one pass over the chunk
stream, accumulating results and the image file index from 0. -/
def processAIResponse (clock : Nat → Nat) (baseFileName : String)
    (chunks : List Chunk) : Except JsError (List ResultObj) :=
  processGo clock baseFileName 0 chunks

/-- The image result pushed on lines 77-81 of server.js: the file is saved
under `public/generated` and the result carries the public path
`/generated/${fileName}` (returned by `saveBinaryFile`, line 53), the
declared media type, and no other keys — in particular no `filename` key. -/
def imageResultServer (base : String) (t i : Nat) (d : InlineData) : ResultObj :=
  ⟨"image", none,
    some ("/generated/" ++
      (mkFileName base t i ++ "." ++ templateOpt (fileExtensionOf d.mimeType))),
    d.mimeType, none, none⟩

/-- The loop body of the server.js variant of `processAIResponse`
(lines 65-88); the disk write performed by `saveBinaryFile` is embedded by
its returned path (write failures are outside the claims considered here). -/
def processGoServer (clock : Nat → Nat) (baseFileName : String) :
    Nat → List Chunk → Except JsError (List ResultObj)
  | _, [] => .ok []
  | fileIndex, chunk :: rest =>
    match guardCheck chunk with
    | .skip => processGoServer clock baseFileName fileIndex rest
    | .raise => .error .typeError
    | .pass =>
      match inlineOf chunk with
      | some d =>
        (processGoServer clock baseFileName (fileIndex + 1) rest).map
          (fun rs => imageResultServer baseFileName (clock fileIndex) fileIndex d :: rs)
      | none =>
        match chunk.text with
        | some t =>
          if t = "" then processGoServer clock baseFileName fileIndex rest
          else (processGoServer clock baseFileName fileIndex rest).map
            (fun rs => mkTextResult t :: rs)
        | none => processGoServer clock baseFileName fileIndex rest

/-- The function `processAIResponse` of server.js lines 61-91. -/
def processAIResponseServer (clock : Nat → Nat) (baseFileName : String)
    (chunks : List Chunk) : Except JsError (List ResultObj) :=
  processGoServer clock baseFileName 0 chunks

/-- A failure raised by the upstream model client: its reported HTTP-like
`status` (absent for non-API errors) and its `message`. -/
structure UpstreamError where
  status : Option Nat
  message : Option String
deriving DecidableEq, Repr

/-- One part of the request content sent to the model: plain text or an
inline binary payload. -/
structure ReqPart where
  text : Option String
  inlineData : Option InlineData
deriving DecidableEq, Repr

/-- One element of the `contents` array sent to the model. -/
structure ReqContent where
  role : String
  parts : List ReqPart
deriving DecidableEq, Repr

/-- The request passed to `ai.models.generateContentStream`: model id,
`config.responseModalities`, and the contents array. -/
structure ModelRequest where
  model : String
  responseModalities : List String
  contents : List ReqContent
deriving DecidableEq, Repr

/-- The body of an HTTP response produced by a handler, embedded as the
object shapes the code actually serializes. -/
inductive RespBody
  /-- Shape `{ error, details?, suggestion? }` -/
  | errBody (error : String) (details : Option String) (suggestion : Option String)
  /-- Shape `{ success: true, prompt, results }` (generate endpoints) -/
  | okGenerate (prompt : String) (results : List ResultObj)
  /-- Shape `{ success: true, prompt, originalImage: {mimeType}, results }`
  (netlify manipulate endpoint) -/
  | okManipulate (prompt : String) (originalMime : String) (results : List ResultObj)
  /-- Shape `{ success: true, prompt, originalImage: {name, size, mimeType},
  results }` (server manipulate endpoint) -/
  | okManipulateServer (prompt : String) (origName : String) (origSize : Nat)
      (origMime : String) (results : List ResultObj)
  /-- the empty body of the CORS preflight response -/
  | empty
deriving DecidableEq, Repr

/-- An HTTP response: status code and body (headers carry no claim-relevant
information and are omitted). -/
structure HttpResponse where
  statusCode : Nat
  body : RespBody
deriving DecidableEq, Repr

/-- The message of the embedded JS runtime failure, as it reaches the
handler's `catch` block. -/
def jsErrorMessage : JsError → String
  | .typeError => "Cannot read properties of undefined (reading 'content')"

/-- The `catch` block shared by every handler (generate-image.js lines
142-196, manipulate-image.js lines 233-288, server.js lines 153-179 and
247-273): map the caught error's `status` to a response, with strict
equality against 429, 401 and 400 and a per-endpoint generic 500 message
otherwise. -/
def handleApiError (e : UpstreamError) (genericMsg : String) : HttpResponse :=
  if e.status = some 429 then
    ⟨429, .errBody "API rate limit exceeded"
      (some "You have exceeded the API rate limit. Please wait a few minutes and try again.")
      (some "Consider upgrading your API plan for higher limits.")⟩
  else if e.status = some 401 then
    ⟨401, .errBody "Invalid API key"
      (some "Please check your GEMINI_API_KEY in the environment variables.") none⟩
  else if e.status = some 400 then
    ⟨400, .errBody "Invalid request"
      (some (jsOr e.message "The request was malformed or invalid.")) none⟩
  else
    ⟨500, .errBody genericMsg e.message none⟩

/-- Lines 99-108 of generate-image.js (124-133 of server.js): the contents
array built for `/generate-image`, carrying the prompt verbatim as the only
part. -/
def generateContents (prompt : String) : List ReqContent :=
  [⟨"user", [⟨some prompt, none⟩]⟩]

/-- The full model request built by the generate handlers. -/
def generateRequest (prompt : String) : ModelRequest :=
  ⟨"gemini-2.5-flash-image-preview", ["IMAGE", "TEXT"], generateContents prompt⟩

/-- The image field extracted from the multipart form of a
`/manipulate-image` request (netlify variant): base64 payload and media
type, as produced by `parseMultipartFormData`. -/
structure FormImage where
  mimeType : String
  data : String
deriving DecidableEq, Repr

/-- Lines 181-196 of manipulate-image.js: the contents array built for
`/manipulate-image`; the text part is the fixed phrase
`Based on the uploaded image, ` followed by the submitted prompt, and the
second part inlines the uploaded image. -/
def manipulateContents (prompt : String) (img : FormImage) : List ReqContent :=
  [⟨"user",
    [⟨some ("Based on the uploaded image, " ++ prompt), none⟩,
     ⟨none, some ⟨some img.mimeType, some img.data⟩⟩]⟩]

/-- The full model request built by the netlify manipulate handler. -/
def manipulateRequest (prompt : String) (img : FormImage) : ModelRequest :=
  ⟨"gemini-2.5-flash-image-preview", ["IMAGE", "TEXT"], manipulateContents prompt img⟩

/-- The uploaded file as multer presents it to server.js: original name,
size, media type, and the buffer (embedded by its base64 rendering, which
is what line 217 of server.js sends upstream). -/
structure UploadFile where
  originalname : String
  size : Nat
  mimetype : String
  bufferB64 : String
deriving DecidableEq, Repr

/-- Lines 207-222 of server.js: the contents array built for
`/api/manipulate-image`. -/
def manipulateContentsServer (prompt : String) (f : UploadFile) : List ReqContent :=
  [⟨"user",
    [⟨some ("Based on the uploaded image, " ++ prompt), none⟩,
     ⟨none, some ⟨some f.mimetype, some f.bufferB64⟩⟩]⟩]

/-- The full model request built by the server manipulate handler. -/
def manipulateRequestServer (prompt : String) (f : UploadFile) : ModelRequest :=
  ⟨"gemini-2.5-flash-image-preview", ["IMAGE", "TEXT"],
    manipulateContentsServer prompt f⟩

/-- The `/generate-image` netlify handler (generate-image.js lines 37-197).
`promptField` is the `prompt` field of the parsed JSON body, `apiKey` the
`GEMINI_API_KEY` environment variable, `upstream` the model client
(a function of the request it is invoked on), and `clock` the ambient
`Date.now()` clock threaded into `processAIResponse`. -/
def generateHandler (httpMethod : String) (promptField : Option String)
    (apiKey : Option String) (clock : Nat → Nat)
    (upstream : ModelRequest → Except UpstreamError (List Chunk)) : HttpResponse :=
  if httpMethod = "OPTIONS" then ⟨200, .empty⟩
  else if httpMethod ≠ "POST" then ⟨405, .errBody "Method not allowed" none none⟩
  else if jsTruthy promptField = false then
    ⟨400, .errBody "Prompt is required" none none⟩
  else if jsTruthy apiKey = false then
    ⟨500, .errBody "GEMINI_API_KEY not configured" none none⟩
  else
    let prompt := promptField.getD ""
    match upstream (generateRequest prompt) with
    | .error e => handleApiError e "Failed to generate image"
    | .ok chunks =>
      match processAIResponse clock "text_to_image" chunks with
      | .error je =>
        handleApiError ⟨none, some (jsErrorMessage je)⟩ "Failed to generate image"
      | .ok results =>
        if results.length = 0 then
          ⟨500, .errBody "No content generated" none none⟩
        else ⟨200, .okGenerate prompt results⟩

/-- The `/api/generate-image` server handler (server.js lines 105-180);
express routes only POST bodies here, so no method dispatch appears. -/
def generateHandlerServer (promptField : Option String)
    (apiKey : Option String) (clock : Nat → Nat)
    (upstream : ModelRequest → Except UpstreamError (List Chunk)) : HttpResponse :=
  if jsTruthy promptField = false then
    ⟨400, .errBody "Prompt is required" none none⟩
  else if jsTruthy apiKey = false then
    ⟨500, .errBody "GEMINI_API_KEY not configured" none none⟩
  else
    let prompt := promptField.getD ""
    match upstream (generateRequest prompt) with
    | .error e => handleApiError e "Failed to generate image"
    | .ok chunks =>
      match processAIResponseServer clock "text_to_image" chunks with
      | .error je =>
        handleApiError ⟨none, some (jsErrorMessage je)⟩ "Failed to generate image"
      | .ok results =>
        if results.length = 0 then
          ⟨500, .errBody "No content generated" none none⟩
        else ⟨200, .okGenerate prompt results⟩

/-- The `/manipulate-image` netlify handler, from the point where the
multipart form has been parsed (manipulate-image.js lines 132-231); the
preceding method and content-type checks are taken as passed for a
well-formed multipart POST.  `promptField` and `imageField` are the parsed
form fields. -/
def manipulateHandler (promptField : Option String) (imageField : Option FormImage)
    (apiKey : Option String) (clock : Nat → Nat)
    (upstream : ModelRequest → Except UpstreamError (List Chunk)) : HttpResponse :=
  if jsTruthy promptField = false then
    ⟨400, .errBody "Prompt is required" none none⟩
  else
    match imageField with
    | none => ⟨400, .errBody "Image file is required" none none⟩
    | some img =>
      if jsTruthy apiKey = false then
        ⟨500, .errBody "GEMINI_API_KEY not configured" none none⟩
      else
        let prompt := promptField.getD ""
        match upstream (manipulateRequest prompt img) with
        | .error e => handleApiError e "Failed to manipulate image"
        | .ok chunks =>
          match processAIResponse clock "image_manipulation" chunks with
          | .error je =>
            handleApiError ⟨none, some (jsErrorMessage je)⟩ "Failed to manipulate image"
          | .ok results =>
            if results.length = 0 then
              ⟨500, .errBody "No content generated" none none⟩
            else ⟨200, .okManipulate prompt img.mimeType results⟩

/-- The `/api/manipulate-image` server handler (server.js lines 183-274);
`fileField` is `req.file` as produced by multer. -/
def manipulateHandlerServer (promptField : Option String)
    (fileField : Option UploadFile) (apiKey : Option String) (clock : Nat → Nat)
    (upstream : ModelRequest → Except UpstreamError (List Chunk)) : HttpResponse :=
  if jsTruthy promptField = false then
    ⟨400, .errBody "Prompt is required" none none⟩
  else
    match fileField with
    | none => ⟨400, .errBody "Image file is required" none none⟩
    | some f =>
      if jsTruthy apiKey = false then
        ⟨500, .errBody "GEMINI_API_KEY not configured" none none⟩
      else
        let prompt := promptField.getD ""
        match upstream (manipulateRequestServer prompt f) with
        | .error e => handleApiError e "Failed to manipulate image"
        | .ok chunks =>
          match processAIResponseServer clock "image_manipulation" chunks with
          | .error je =>
            handleApiError ⟨none, some (jsErrorMessage je)⟩ "Failed to manipulate image"
          | .ok results =>
            if results.length = 0 then
              ⟨500, .errBody "No content generated" none none⟩
            else ⟨200,
              .okManipulateServer prompt f.originalname f.size f.mimetype results⟩

/-! ## Classification of chunks, read off the branches of the loop body -/

/-- The result kind a chunk produces: `some "image"` when the guard passes
and the first part carries inline data, `some "text"` when the guard passes,
no inline data is present and the chunk's text field is truthy, `none`
when the chunk contributes nothing (or raises). -/
def emitTag (c : Chunk) : Option String :=
  match guardCheck c with
  | .pass =>
    match inlineOf c with
    | some _ => some "image"
    | none =>
      match c.text with
      | some t => if t = "" then none else some "text"
      | none => none
  | _ => none

/-- The verbatim text a chunk contributes, when it contributes one. -/
def textEmitted (c : Chunk) : Option String :=
  if emitTag c = some "text" then c.text else none

/-- A chunk the guard skips. -/
def isSkippable (c : Chunk) : Bool :=
  guardCheck c = .skip

/-- A well-formed inline-binary chunk: the guard passes and the first part
carries inline data. -/
def isImageChunk (c : Chunk) : Bool :=
  guardCheck c = .pass && (inlineOf c).isSome

/-- A well-formed text chunk: the guard passes, the first part carries no
inline data, and the text field is non-empty. -/
def isTextChunk (c : Chunk) : Bool :=
  guardCheck c = .pass && (inlineOf c).isNone && jsTruthy c.text

/-- The image results a run over only-image chunks produces, with the file
index starting at `i`: one per chunk, indices consecutive. -/
def imagesFrom (clock : Nat → Nat) (base : String) :
    Nat → List Chunk → List ResultObj
  | _, [] => []
  | i, c :: l =>
    imageResult base (clock i) i ((inlineOf c).getD ⟨none, none⟩)
      :: imagesFrom clock base (i + 1) l

/-! ## Step lemmas for the processing loop -/

theorem processGo_skip (clock : Nat → Nat) (b : String) (i : Nat) (c : Chunk)
    (l : List Chunk) (h : guardCheck c = .skip) :
    processGo clock b i (c :: l) = processGo clock b i l := by
  simp only [processGo, h]

theorem processGo_raise (clock : Nat → Nat) (b : String) (i : Nat) (c : Chunk)
    (l : List Chunk) (h : guardCheck c = .raise) :
    processGo clock b i (c :: l) = .error .typeError := by
  simp only [processGo, h]

theorem processGo_image (clock : Nat → Nat) (b : String) (i : Nat) (c : Chunk)
    (l : List Chunk) (d : InlineData) (h : guardCheck c = .pass)
    (hd : inlineOf c = some d) :
    processGo clock b i (c :: l) =
      (processGo clock b (i + 1) l).map
        (fun rs => imageResult b (clock i) i d :: rs) := by
  simp only [processGo, h, hd]

theorem processGo_text (clock : Nat → Nat) (b : String) (i : Nat) (c : Chunk)
    (l : List Chunk) (t : String) (h : guardCheck c = .pass)
    (hd : inlineOf c = none) (ht : c.text = some t) (hne : t ≠ "") :
    processGo clock b i (c :: l) =
      (processGo clock b i l).map (fun rs => mkTextResult t :: rs) := by
  simp only [processGo, h, hd, ht, if_neg hne]

theorem processGo_textEmpty (clock : Nat → Nat) (b : String) (i : Nat) (c : Chunk)
    (l : List Chunk) (h : guardCheck c = .pass) (hd : inlineOf c = none)
    (ht : c.text = some "") :
    processGo clock b i (c :: l) = processGo clock b i l := by
  simp [processGo, h, hd, ht]

theorem processGo_textNone (clock : Nat → Nat) (b : String) (i : Nat) (c : Chunk)
    (l : List Chunk) (h : guardCheck c = .pass) (hd : inlineOf c = none)
    (ht : c.text = none) :
    processGo clock b i (c :: l) = processGo clock b i l := by
  simp only [processGo, h, hd, ht]

theorem except_map_ok {ε α β : Type} (g : α → β) (x : Except ε α) (r : β)
    (h : x.map g = .ok r) : ∃ a, x = .ok a ∧ r = g a := by
  cases x with
  | error e => simp [Except.map] at h
  | ok a => exact ⟨a, rfl, by simpa [Except.map] using h.symm⟩

/-! ## Characterization of a completed run -/

/-- A completed run tags results by the chunk classification, in stream
order, and carries every emitted text verbatim in stream order. -/
theorem processGo_ok_tags (clock : Nat → Nat) (b : String) :
    ∀ (cs : List Chunk) (i : Nat) (results : List ResultObj),
      processGo clock b i cs = .ok results →
      results.map ResultObj.type = cs.filterMap emitTag ∧
      results.filterMap ResultObj.content = cs.filterMap textEmitted := by
  intro cs
  induction cs with
  | nil =>
    intro i results h
    simp only [processGo] at h
    cases h
    simp
  | cons c l IH =>
    intro i results h
    cases hg : guardCheck c with
    | skip =>
      rw [processGo_skip clock b i c l hg] at h
      have hTag : emitTag c = none := by simp [emitTag, hg]
      have hTxt : textEmitted c = none := by simp [textEmitted, hTag]
      simpa [List.filterMap_cons, hTag, hTxt] using IH i results h
    | raise =>
      rw [processGo_raise clock b i c l hg] at h
      cases h
    | pass =>
      cases hi : inlineOf c with
      | some d =>
        rw [processGo_image clock b i c l d hg hi] at h
        obtain ⟨a, hx, hr⟩ := except_map_ok _ _ _ h
        subst hr
        have hTag : emitTag c = some "image" := by simp [emitTag, hg, hi]
        have hTxt : textEmitted c = none := by simp [textEmitted, hTag]
        have := IH (i + 1) a hx
        simp [List.filterMap_cons, hTag, hTxt, imageResult, this.1, this.2]
      | none =>
        cases ht : c.text with
        | none =>
          rw [processGo_textNone clock b i c l hg hi ht] at h
          have hTag : emitTag c = none := by simp [emitTag, hg, hi, ht]
          have hTxt : textEmitted c = none := by simp [textEmitted, hTag]
          simpa [List.filterMap_cons, hTag, hTxt] using IH i results h
        | some t =>
          by_cases hne : t = ""
          · subst hne
            rw [processGo_textEmpty clock b i c l hg hi ht] at h
            have hTag : emitTag c = none := by simp [emitTag, hg, hi, ht]
            have hTxt : textEmitted c = none := by simp [textEmitted, hTag]
            simpa [List.filterMap_cons, hTag, hTxt] using IH i results h
          · rw [processGo_text clock b i c l t hg hi ht hne] at h
            obtain ⟨a, hx, hr⟩ := except_map_ok _ _ _ h
            subst hr
            have hTag : emitTag c = some "text" := by simp [emitTag, hg, hi, ht, hne]
            have hTxt : textEmitted c = some t := by simp [textEmitted, hTag, ht]
            have := IH i a hx
            simp [List.filterMap_cons, hTag, hTxt, mkTextResult, this.1, this.2]

/-- A run over well-formed text chunks only returns exactly their texts, in
order, as text results. -/
theorem processGo_allText (clock : Nat → Nat) (b : String) :
    ∀ (cs : List Chunk), (∀ c ∈ cs, isTextChunk c) → ∀ i : Nat,
      processGo clock b i cs =
        .ok (cs.filterMap (fun c => c.text.map mkTextResult)) := by
  intro cs
  induction cs with
  | nil => intro _ i; simp [processGo]
  | cons c l IH =>
    intro hall i
    have hc : isTextChunk c = true := hall c (by simp)
    simp only [isTextChunk, Bool.and_eq_true, decide_eq_true_eq,
      Option.isNone_iff_eq_none] at hc
    obtain ⟨⟨hg, hi⟩, ht⟩ := hc
    cases htx : c.text with
    | none => simp [jsTruthy, htx] at ht
    | some t =>
      have hne : t ≠ "" := by
        simp [jsTruthy, htx] at ht
        simpa using ht
      rw [processGo_text clock b i c l t hg hi htx hne,
        IH (fun x hx => hall x (by simp [hx])) i]
      simp [Except.map, List.filterMap_cons, htx]

/-- Inserting a guard-skipped chunk anywhere in the stream leaves the run
unchanged: same results, same indices, same ordering. -/
theorem processGo_congr_tail (clock : Nat → Nat) (b : String) (c : Chunk)
    (l₁ l₂ : List Chunk)
    (h : ∀ j : Nat, processGo clock b j l₁ = processGo clock b j l₂) :
    ∀ i : Nat, processGo clock b i (c :: l₁) = processGo clock b i (c :: l₂) := by
  intro i
  cases hg : guardCheck c with
  | skip => rw [processGo_skip clock b i c l₁ hg, processGo_skip clock b i c l₂ hg, h i]
  | raise => rw [processGo_raise clock b i c l₁ hg, processGo_raise clock b i c l₂ hg]
  | pass =>
    cases hi : inlineOf c with
    | some d =>
      rw [processGo_image clock b i c l₁ d hg hi,
        processGo_image clock b i c l₂ d hg hi, h (i + 1)]
    | none =>
      cases ht : c.text with
      | none =>
        rw [processGo_textNone clock b i c l₁ hg hi ht,
          processGo_textNone clock b i c l₂ hg hi ht, h i]
      | some t =>
        by_cases hne : t = ""
        · subst hne
          rw [processGo_textEmpty clock b i c l₁ hg hi ht,
            processGo_textEmpty clock b i c l₂ hg hi ht, h i]
        · rw [processGo_text clock b i c l₁ t hg hi ht hne,
            processGo_text clock b i c l₂ t hg hi ht hne, h i]

theorem processGo_middle_skip (clock : Nat → Nat) (b : String) (m : Chunk)
    (ys : List Chunk) (hm : guardCheck m = .skip) :
    ∀ (xs : List Chunk) (i : Nat),
      processGo clock b i (xs ++ m :: ys) = processGo clock b i (xs ++ ys) := by
  intro xs
  induction xs with
  | nil => intro i; exact processGo_skip clock b i m ys hm
  | cons x xs IH => intro i; exact processGo_congr_tail clock b x _ _ IH i

theorem processGo_middle_raise (clock : Nat → Nat) (b : String) (m : Chunk)
    (ys : List Chunk) (hm : guardCheck m = .raise) :
    ∀ (xs : List Chunk) (i : Nat),
      processGo clock b i (xs ++ m :: ys) = .error .typeError := by
  intro xs
  induction xs with
  | nil => intro i; exact processGo_raise clock b i m ys hm
  | cons x xs IH =>
    intro i
    cases hg : guardCheck x with
    | skip => rw [List.cons_append, processGo_skip clock b i x _ hg, IH i]
    | raise => rw [List.cons_append, processGo_raise clock b i x _ hg]
    | pass =>
      cases hi : inlineOf x with
      | some d =>
        rw [List.cons_append, processGo_image clock b i x _ d hg hi, IH (i + 1)]
        simp [Except.map]
      | none =>
        cases ht : x.text with
        | none => rw [List.cons_append, processGo_textNone clock b i x _ hg hi ht, IH i]
        | some t =>
          by_cases hne : t = ""
          · subst hne
            rw [List.cons_append, processGo_textEmpty clock b i x _ hg hi ht, IH i]
          · rw [List.cons_append, processGo_text clock b i x _ t hg hi ht hne, IH i]
            simp [Except.map]

/-- A run over well-formed inline-binary chunks only returns one image
result per chunk with consecutive file indices. -/
theorem processGo_allImages (clock : Nat → Nat) (b : String) :
    ∀ (cs : List Chunk), (∀ c ∈ cs, isImageChunk c) → ∀ i : Nat,
      processGo clock b i cs = .ok (imagesFrom clock b i cs) := by
  intro cs
  induction cs with
  | nil => intro _ i; simp [processGo, imagesFrom]
  | cons c l IH =>
    intro hall i
    have hc : isImageChunk c = true := hall c (by simp)
    simp only [isImageChunk, Bool.and_eq_true, decide_eq_true_eq,
      Option.isSome_iff_exists] at hc
    obtain ⟨hg, d, hd⟩ := hc
    rw [processGo_image clock b i c l d hg hd,
      IH (fun x hx => hall x (by simp [hx])) (i + 1)]
    simp [Except.map, imagesFrom, hd]

/-! ## Step and shape lemmas for the server-side loop -/

theorem processGoServer_skip (clock : Nat → Nat) (b : String) (i : Nat) (c : Chunk)
    (l : List Chunk) (h : guardCheck c = .skip) :
    processGoServer clock b i (c :: l) = processGoServer clock b i l := by
  simp only [processGoServer, h]

theorem processGoServer_image (clock : Nat → Nat) (b : String) (i : Nat) (c : Chunk)
    (l : List Chunk) (d : InlineData) (h : guardCheck c = .pass)
    (hd : inlineOf c = some d) :
    processGoServer clock b i (c :: l) =
      (processGoServer clock b (i + 1) l).map
        (fun rs => imageResultServer b (clock i) i d :: rs) := by
  simp only [processGoServer, h, hd]

theorem processGoServer_text (clock : Nat → Nat) (b : String) (i : Nat) (c : Chunk)
    (l : List Chunk) (t : String) (h : guardCheck c = .pass)
    (hd : inlineOf c = none) (ht : c.text = some t) (hne : t ≠ "") :
    processGoServer clock b i (c :: l) =
      (processGoServer clock b i l).map (fun rs => mkTextResult t :: rs) := by
  simp only [processGoServer, h, hd, ht, if_neg hne]

theorem processGoServer_textEmpty (clock : Nat → Nat) (b : String) (i : Nat)
    (c : Chunk) (l : List Chunk) (h : guardCheck c = .pass) (hd : inlineOf c = none)
    (ht : c.text = some "") :
    processGoServer clock b i (c :: l) = processGoServer clock b i l := by
  simp [processGoServer, h, hd, ht]

theorem processGoServer_textNone (clock : Nat → Nat) (b : String) (i : Nat)
    (c : Chunk) (l : List Chunk) (h : guardCheck c = .pass) (hd : inlineOf c = none)
    (ht : c.text = none) :
    processGoServer clock b i (c :: l) = processGoServer clock b i l := by
  simp only [processGoServer, h, hd, ht]

/-- A chunk whose inline payload, when present, declares both its media
type and its data. -/
def declaresInlineFields (c : Chunk) : Bool :=
  match inlineOf c with
  | some d => d.mimeType.isSome && d.data.isSome
  | none => true

/-- A chunk whose inline payload, when present, declares its media type. -/
def declaresMediaType (c : Chunk) : Bool :=
  match inlineOf c with
  | some d => d.mimeType.isSome
  | none => true

/-- Field-presence shape of the results of a netlify-variant run: image
results carry `data`, `mimeType` and `filename` (given the stream's inline
payloads declare data and media type) and no `url`; text results carry
`content` only. -/
theorem processGo_shape (clock : Nat → Nat) (b : String) :
    ∀ (cs : List Chunk) (i : Nat) (results : List ResultObj),
      (∀ c ∈ cs, declaresInlineFields c) →
      processGo clock b i cs = .ok results →
      ∀ r ∈ results,
        (r.type = "image" →
          r.data.isSome ∧ r.mimeType.isSome ∧ r.filename.isSome ∧
          r.url = none ∧ r.content = none) ∧
        (r.type = "text" → r.content.isSome ∧ r.data = none ∧ r.url = none ∧
          r.mimeType = none ∧ r.filename = none) := by
  intro cs
  induction cs with
  | nil =>
    intro i results _ h
    simp only [processGo] at h
    cases h
    simp
  | cons c l IH =>
    intro i results hwf h
    have hwfl : ∀ c ∈ l, declaresInlineFields c :=
      fun x hx => hwf x (by simp [hx])
    cases hg : guardCheck c with
    | skip =>
      rw [processGo_skip clock b i c l hg] at h
      exact IH i results hwfl h
    | raise =>
      rw [processGo_raise clock b i c l hg] at h
      cases h
    | pass =>
      cases hi : inlineOf c with
      | some d =>
        rw [processGo_image clock b i c l d hg hi] at h
        obtain ⟨a, hx, hr⟩ := except_map_ok _ _ _ h
        subst hr
        intro r hr
        rcases List.mem_cons.mp hr with hr | hr
        · subst hr
          have hd0 := hwf c (by simp)
          rw [declaresInlineFields, hi] at hd0
          have hd : d.mimeType.isSome ∧ d.data.isSome := by
            simpa using hd0
          refine ⟨fun _ => ⟨hd.2, hd.1, by simp [imageResult], rfl, rfl⟩, fun ht => ?_⟩
          exact absurd ht (by simp [imageResult])
        · exact IH (i + 1) a hwfl hx r hr
      | none =>
        cases ht : c.text with
        | none =>
          rw [processGo_textNone clock b i c l hg hi ht] at h
          exact IH i results hwfl h
        | some t =>
          by_cases hne : t = ""
          · subst hne
            rw [processGo_textEmpty clock b i c l hg hi ht] at h
            exact IH i results hwfl h
          · rw [processGo_text clock b i c l t hg hi ht hne] at h
            obtain ⟨a, hx, hr⟩ := except_map_ok _ _ _ h
            subst hr
            intro r hr
            rcases List.mem_cons.mp hr with hr | hr
            · subst hr
              refine ⟨fun hty => absurd hty (by simp [mkTextResult]), fun _ => ?_⟩
              simp [mkTextResult]
            · exact IH i a hwfl hx r hr

/-- Field-presence shape of the results of a server-variant run: image
results carry `url` and `mimeType` (given the stream's inline payloads
declare a media type) but no `filename` and no `data`; text results carry
`content` only. -/
theorem processGoServer_shape (clock : Nat → Nat) (b : String) :
    ∀ (cs : List Chunk) (i : Nat) (results : List ResultObj),
      (∀ c ∈ cs, declaresMediaType c) →
      processGoServer clock b i cs = .ok results →
      ∀ r ∈ results,
        (r.type = "image" →
          r.url.isSome ∧ r.mimeType.isSome ∧ r.filename = none ∧
          r.data = none ∧ r.content = none) ∧
        (r.type = "text" → r.content.isSome ∧ r.data = none ∧ r.url = none ∧
          r.mimeType = none ∧ r.filename = none) := by
  intro cs
  induction cs with
  | nil =>
    intro i results _ h
    simp only [processGoServer] at h
    cases h
    simp
  | cons c l IH =>
    intro i results hwf h
    have hwfl : ∀ c ∈ l, declaresMediaType c :=
      fun x hx => hwf x (by simp [hx])
    cases hg : guardCheck c with
    | skip =>
      rw [processGoServer_skip clock b i c l hg] at h
      exact IH i results hwfl h
    | raise =>
      simp only [processGoServer, hg] at h
      cases h
    | pass =>
      cases hi : inlineOf c with
      | some d =>
        rw [processGoServer_image clock b i c l d hg hi] at h
        obtain ⟨a, hx, hr⟩ := except_map_ok _ _ _ h
        subst hr
        intro r hr
        rcases List.mem_cons.mp hr with hr | hr
        · subst hr
          have hd0 := hwf c (by simp)
          rw [declaresMediaType, hi] at hd0
          refine ⟨fun _ => ⟨by simp [imageResultServer], hd0, rfl, rfl, rfl⟩, fun ht => ?_⟩
          exact absurd ht (by simp [imageResultServer])
        · exact IH (i + 1) a hwfl hx r hr
      | none =>
        cases ht : c.text with
        | none =>
          rw [processGoServer_textNone clock b i c l hg hi ht] at h
          exact IH i results hwfl h
        | some t =>
          by_cases hne : t = ""
          · subst hne
            rw [processGoServer_textEmpty clock b i c l hg hi ht] at h
            exact IH i results hwfl h
          · rw [processGoServer_text clock b i c l t hg hi ht hne] at h
            obtain ⟨a, hx, hr⟩ := except_map_ok _ _ _ h
            subst hr
            intro r hr
            rcases List.mem_cons.mp hr with hr | hr
            · subst hr
              refine ⟨fun hty => absurd hty (by simp [mkTextResult]), fun _ => ?_⟩
              simp [mkTextResult]
            · exact IH i a hwfl hx r hr

/-! ## Decimal digit strings: no separators, injectivity -/

theorem digitChar_ne_sep : ∀ d : Nat, d < 10 → digitChar d ≠ '_' ∧ digitChar d ≠ '.' := by
  decide

theorem digitChar_inj : ∀ a : Nat, a < 10 → ∀ b : Nat, b < 10 →
    digitChar a = digitChar b → a = b := by
  decide

theorem natToChars_ne_nil (n : Nat) : natToChars n ≠ [] := by
  rw [natToChars]
  split
  · simp
  · simp

theorem natToChars_no_sep (n : Nat) : ∀ c ∈ natToChars n, c ≠ '_' ∧ c ≠ '.' := by
  induction n using Nat.strong_induction_on with
  | _ n IH =>
    intro c hc
    rw [natToChars] at hc
    by_cases hn : n < 10
    · rw [dif_pos hn] at hc
      simp at hc
      subst hc
      exact digitChar_ne_sep n hn
    · rw [dif_neg hn] at hc
      rcases List.mem_append.mp hc with hc | hc
      · exact IH (n / 10) (Nat.div_lt_self (by omega) (by omega)) c hc
      · simp at hc
        subst hc
        exact digitChar_ne_sep (n % 10) (Nat.mod_lt _ (by omega))

theorem natToChars_eq (n : Nat) :
    natToChars n =
      if n < 10 then [digitChar n] else natToChars (n / 10) ++ [digitChar (n % 10)] := by
  rw [natToChars]
  by_cases h : n < 10 <;> simp [h]

theorem natToChars_inj : ∀ m n : Nat, natToChars m = natToChars n → m = n := by
  intro m
  induction m using Nat.strong_induction_on with
  | _ m IH =>
    intro n h
    rw [natToChars_eq m, natToChars_eq n] at h
    by_cases hm : m < 10 <;> by_cases hn : n < 10
    · rw [if_pos hm, if_pos hn] at h
      simp at h
      exact digitChar_inj m hm n hn h
    · rw [if_pos hm, if_neg hn] at h
      exfalso
      apply natToChars_ne_nil (n / 10)
      have hlen := congrArg List.length h
      simp only [List.length_cons, List.length_append, List.length_nil] at hlen
      rw [← List.length_eq_zero]
      omega
    · rw [if_neg hm, if_pos hn] at h
      exfalso
      apply natToChars_ne_nil (m / 10)
      have hlen := congrArg List.length h
      simp only [List.length_cons, List.length_append, List.length_nil] at hlen
      rw [← List.length_eq_zero]
      omega
    · rw [if_neg hm, if_neg hn] at h
      rw [← List.concat_eq_append, ← List.concat_eq_append] at h
      obtain ⟨h1, h2⟩ := List.concat_inj.mp h
      have hd : m / 10 = n / 10 :=
        IH (m / 10) (Nat.div_lt_self (by omega) (by omega)) (n / 10) h1
      have hm2 : m % 10 = n % 10 :=
        digitChar_inj _ (Nat.mod_lt _ (by omega)) _ (Nat.mod_lt _ (by omega)) h2
      omega

/-- Splitting a character list at a separator absent from both leading
segments is unambiguous. -/
theorem append_sep_inj {s : Char} :
    ∀ (A B X Y : List Char), s ∉ A → s ∉ B →
      A ++ s :: X = B ++ s :: Y → A = B ∧ X = Y := by
  intro A
  induction A with
  | nil =>
    intro B X Y _ hB h
    cases B with
    | nil => simpa using h
    | cons b B' =>
      exfalso
      simp only [List.nil_append, List.cons_append, List.cons.injEq] at h
      exact hB (h.1 ▸ List.mem_cons_self b B')
  | cons a A' IH =>
    intro B X Y hA hB h
    cases B with
    | nil =>
      exfalso
      simp only [List.nil_append, List.cons_append, List.cons.injEq] at h
      exact hA (h.1 ▸ List.mem_cons_self a A')
    | cons b B' =>
      simp only [List.cons_append, List.cons.injEq] at h
      obtain ⟨hab, h'⟩ := h
      have := IH B' X Y (fun hx => hA (List.mem_cons_of_mem a hx))
        (fun hx => hB (List.mem_cons_of_mem b hx)) h'
      exact ⟨by rw [hab, this.1], this.2⟩

theorem natToString_data (n : Nat) : (natToString n).data = natToChars n := rfl

/-- Two generated filenames sharing the base can only coincide when their
file indices coincide, whatever the timestamps and extensions: the
timestamp and index segments are digit-only, so the separators `_` and `.`
split the name unambiguously. -/
theorem fullFileName_inj (base e₁ e₂ : String) (t₁ t₂ i j : Nat)
    (h : mkFileName base t₁ i ++ "." ++ e₁ = mkFileName base t₂ j ++ "." ++ e₂) :
    i = j := by
  have hd := congrArg String.data h
  simp only [mkFileName, String.data_append, natToString_data,
    show ("_" : String).data = ['_'] from rfl,
    show ("." : String).data = ['.'] from rfl,
    List.append_assoc, List.singleton_append] at hd
  have hd' := List.append_cancel_left hd
  injection hd' with hu hd2
  have h1 := append_sep_inj (natToChars t₁) (natToChars t₂) _ _
    (fun hx => (natToChars_no_sep t₁ '_' hx).1 rfl)
    (fun hx => (natToChars_no_sep t₂ '_' hx).1 rfl) hd2
  have h2 := append_sep_inj (natToChars i) (natToChars j) _ _
    (fun hx => (natToChars_no_sep i '.' hx).2 rfl)
    (fun hx => (natToChars_no_sep j '.' hx).2 rfl) h1.2
  exact natToChars_inj i j h2.1

/-- Every element of `imagesFrom clock b i cs` is an image result with file
index at least `i`. -/
theorem mem_imagesFrom (clock : Nat → Nat) (b : String) :
    ∀ (cs : List Chunk) (i : Nat) (r : ResultObj), r ∈ imagesFrom clock b i cs →
      ∃ k d, i ≤ k ∧ r = imageResult b (clock k) k d := by
  intro cs
  induction cs with
  | nil => intro i r hr; simp [imagesFrom] at hr
  | cons c l IH =>
    intro i r hr
    rw [imagesFrom] at hr
    rcases List.mem_cons.mp hr with hr | hr
    · exact ⟨i, _, le_refl i, hr⟩
    · obtain ⟨k, d, hk, hrk⟩ := IH (i + 1) r hr
      exact ⟨k, d, by omega, hrk⟩

/-- The filenames produced within one run are pairwise distinct. -/
theorem imagesFrom_pairwise_filename (clock : Nat → Nat) (b : String) :
    ∀ (cs : List Chunk) (i : Nat),
      (imagesFrom clock b i cs).Pairwise (fun r s => r.filename ≠ s.filename) := by
  intro cs
  induction cs with
  | nil => intro i; simp [imagesFrom]
  | cons c l IH =>
    intro i
    rw [imagesFrom]
    refine List.Pairwise.cons ?_ (IH (i + 1))
    intro s hs
    obtain ⟨k, d, hk, hsk⟩ := mem_imagesFrom clock b l (i + 1) s hs
    subst hsk
    simp only [imageResult, Option.some.injEq, ne_eq]
    intro heq
    exact absurd (fullFileName_inj b _ _ _ _ i k heq) (by omega)

/-! ## Concrete chunks used by witnesses and counterexamples -/

/-- A well-formed text chunk carrying `"hello"`. -/
def chunkTextHello : Chunk :=
  ⟨some [⟨some ⟨some [⟨none⟩]⟩⟩], some "hello"⟩

/-- A chunk whose `candidates` field is absent. -/
def chunkNoCandidates : Chunk :=
  ⟨none, some "orphan"⟩

/-- A chunk whose `candidates` field is the empty array. -/
def chunkEmptyCandidates : Chunk :=
  ⟨some [], none⟩

/-- A well-formed inline-binary chunk declaring `image/png`. -/
def chunkImagePng : Chunk :=
  ⟨some [⟨some ⟨some [⟨some ⟨some "image/png", some "AAAA"⟩⟩]⟩⟩], none⟩

/-- A well-formed inline-binary chunk declaring an unrecognized media type. -/
def chunkImageBogus : Chunk :=
  ⟨some [⟨some ⟨some [⟨some ⟨some "image/bogus", some "BBBB"⟩⟩]⟩⟩], none⟩

/-- A well-formed chunk without inline data whose text field is the empty
string. -/
def chunkTextEmpty : Chunk :=
  ⟨some [⟨some ⟨some [⟨none⟩]⟩⟩], some ""⟩

theorem jsTruthy_some_of_ne (s : String) (h : s ≠ "") : jsTruthy (some s) = true := by
  simp [jsTruthy, h]

/-! ## The claims -/

/-- C1, counterexample. The claim asserts that *every* chunk lacking a
well-formed candidates/content/parts path — explicitly including a chunk
whose `candidates` field is an empty array — is skipped without raising.
On a chunk with `candidates: []` the guard of lines 10-12 evaluates
`chunk.candidates[0].content` (an empty array is truthy in JS), a property
read on `undefined`: `processAIResponse` raises instead of skipping, and
the stream is aborted. -/
theorem claim1_counterexample :
    processAIResponse (fun _ => 0) "text_to_image" [chunkEmptyCandidates] =
      .error .typeError ∧
    processAIResponse (fun _ => 0) "text_to_image" [chunkEmptyCandidates] ≠
      .ok [] := by
  exact ⟨rfl, by decide⟩

/-- C1 (amended): a chunk whose `candidates` field is missing, or whose
first candidate lacks `content` or `content.parts`, is skipped without
raising: removing it from the stream leaves the run unchanged — the chunk
contributes nothing and the indices and ordering of all other chunks are
unaffected.  A chunk whose `candidates` field is an *empty array*, however,
raises a `TypeError` that aborts processing of the whole stream. -/
theorem claim1_malformed_chunks :
    (∀ (clock : Nat → Nat) (b : String) (m : Chunk), guardCheck m = .skip →
      ∀ (xs ys : List Chunk) (i : Nat),
        processGo clock b i (xs ++ m :: ys) = processGo clock b i (xs ++ ys)) ∧
    (∀ (clock : Nat → Nat) (b : String) (m : Chunk), m.candidates = some [] →
      ∀ (xs ys : List Chunk) (i : Nat),
        processGo clock b i (xs ++ m :: ys) = .error .typeError) := by
  constructor
  · intro clock b m hm xs ys i
    exact processGo_middle_skip clock b m ys hm xs i
  · intro clock b m hm xs ys i
    have hg : guardCheck m = .raise := by
      unfold guardCheck
      rw [hm]
    exact processGo_middle_raise clock b m ys hg xs i

/-- Witness for C1 at concrete inputs: a candidates-less chunk inserted
before a text chunk changes nothing; an empty-candidates chunk aborts the
run. -/
theorem claim1_malformed_chunks_witness :
    guardCheck chunkNoCandidates = .skip ∧
    processGo (fun k => k) "text_to_image" 0 ([] ++ chunkNoCandidates :: [chunkTextHello]) =
      processGo (fun k => k) "text_to_image" 0 ([] ++ [chunkTextHello]) ∧
    Chunk.candidates chunkEmptyCandidates = some [] ∧
    processGo (fun k => k) "text_to_image" 0 ([chunkTextHello] ++ chunkEmptyCandidates :: []) =
      .error .typeError := by
  refine ⟨rfl, ?_, rfl, ?_⟩
  · exact claim1_malformed_chunks.1 (fun k => k) "text_to_image" chunkNoCandidates rfl
      [] [chunkTextHello] 0
  · exact claim1_malformed_chunks.2 (fun k => k) "text_to_image" chunkEmptyCandidates rfl
      [chunkTextHello] [] 0

/-- C2, counterexample. The claim asserts exactly one Text result for every
chunk "that carries a text field".  A well-formed chunk whose text field is
the *empty string* carries a text field, yet line 26's truthiness test
`else if (chunk.text)` rejects `""`: the chunk yields zero results. -/
theorem claim2_counterexample :
    Chunk.text chunkTextEmpty = some "" ∧
    processAIResponse (fun _ => 0) "text_to_image" [chunkTextEmpty] = .ok [] := by
  exact ⟨rfl, rfl⟩

/-- C2 (amended): whenever `processAIResponse` returns a result list (it
instead raises on a chunk with an empty candidates array, see C1), the
result tags follow the chunk arrival order with exactly one result per
chunk whose first part carries inline data (an Image) or that carries a
*non-empty* text field (a Text), zero results for all other chunks; the
emitted texts are the chunks' text fields verbatim, in arrival order,
without deduplication or merging; and a stream of only well-formed
non-empty-text chunks returns exactly their Text results in order and no
Image results. -/
theorem claim2_order_preserved :
    ∀ (clock : Nat → Nat) (b : String) (cs : List Chunk) (results : List ResultObj),
      processAIResponse clock b cs = .ok results →
      results.map ResultObj.type = cs.filterMap emitTag ∧
      results.filterMap ResultObj.content = cs.filterMap textEmitted ∧
      ((∀ c ∈ cs, isTextChunk c) →
        results = cs.filterMap (fun c => c.text.map mkTextResult)) := by
  intro clock b cs results h
  obtain ⟨h1, h2⟩ := processGo_ok_tags clock b cs 0 results h
  refine ⟨h1, h2, fun hall => ?_⟩
  have := processGo_allText clock b cs hall 0
  rw [processAIResponse] at h
  rw [this] at h
  exact (Except.ok.inj h).symm

/-- Witness for C2 at a concrete two-chunk text stream. -/
theorem claim2_order_preserved_witness :
    processAIResponse (fun k => k) "text_to_image" [chunkTextHello, chunkTextHello] =
      .ok [mkTextResult "hello", mkTextResult "hello"] ∧
    [mkTextResult "hello", mkTextResult "hello"].map ResultObj.type =
      [chunkTextHello, chunkTextHello].filterMap emitTag ∧
    [mkTextResult "hello", mkTextResult "hello"].filterMap ResultObj.content =
      [chunkTextHello, chunkTextHello].filterMap textEmitted ∧
    ((∀ c ∈ [chunkTextHello, chunkTextHello], isTextChunk c) →
      [mkTextResult "hello", mkTextResult "hello"] =
        [chunkTextHello, chunkTextHello].filterMap (fun c => c.text.map mkTextResult)) := by
  refine ⟨rfl, ?_⟩
  exact claim2_order_preserved (fun k => k) "text_to_image"
    [chunkTextHello, chunkTextHello] [mkTextResult "hello", mkTextResult "hello"] rfl

/-- C3, counterexample. The claim asserts the extension defaults to `png`
for an *unrecognized* media type.  The code defaults only when the media
type is absent (or empty): `mime.getExtension(inlineData.mimeType ||
'image/png')`.  For a present but unrecognized type, `getExtension` returns
`null` and the template literal renders it as the four characters `null`. -/
theorem claim3_counterexample :
    templateOpt (fileExtensionOf (some "image/bogus")) = "null" ∧
    templateOpt (fileExtensionOf (some "image/bogus")) ≠ "png" := by
  exact ⟨rfl, by decide⟩

/-- C3 (amended): the extension interpolated into the filename is `png`
when the declared media type is absent or empty; for a recognized media
type it is that type's extension; for a present but unrecognized media
type it is the string `null` (JS rendering of the `null` returned by
`mime.getExtension`). -/
theorem claim3_extension_default :
    templateOpt (fileExtensionOf none) = "png" ∧
    templateOpt (fileExtensionOf (some "")) = "png" ∧
    (∀ m e : String, mimeGetExtension m = some e →
      templateOpt (fileExtensionOf (some m)) = e) ∧
    (∀ m : String, m ≠ "" → mimeGetExtension m = none →
      templateOpt (fileExtensionOf (some m)) = "null") := by
  refine ⟨rfl, rfl, ?_, ?_⟩
  · intro m e hm
    have hne : m ≠ "" := by
      intro hcon
      subst hcon
      simp [mimeGetExtension] at hm
    simp only [fileExtensionOf, jsOr, if_neg hne, hm, templateOpt]
  · intro m hne hm
    simp only [fileExtensionOf, jsOr, if_neg hne, hm, templateOpt]

/-- Witness for C3 at the media types `image/jpeg` (recognized) and
`image/bogus` (unrecognized). -/
theorem claim3_extension_default_witness :
    mimeGetExtension "image/jpeg" = some "jpeg" ∧
    templateOpt (fileExtensionOf (some "image/jpeg")) = "jpeg" ∧
    "image/bogus" ≠ "" ∧
    mimeGetExtension "image/bogus" = none ∧
    templateOpt (fileExtensionOf (some "image/bogus")) = "null" := by
  refine ⟨rfl, ?_, by decide, rfl, ?_⟩
  · exact claim3_extension_default.2.2.1 "image/jpeg" "jpeg" rfl
  · exact claim3_extension_default.2.2.2 "image/bogus" (by decide) rfl

/-- C4 (confirmed): over a stream of only well-formed inline-binary chunks
the run returns one image result per chunk; the k-th result's filename is
`{base}_{clock k}_{k}.{ext}` (`imagesFrom`/`imageResult` spell out this
form), so the per-response indices are exactly 0,1,2,... in stream order,
and all filenames produced within the call are pairwise distinct — the
timestamp and index segments are digit strings, so two filenames with
distinct indices cannot collide whatever `Date.now()` returned. -/
theorem claim4_image_run :
    ∀ (clock : Nat → Nat) (b : String) (cs : List Chunk),
      (∀ c ∈ cs, isImageChunk c) →
      processAIResponse clock b cs = .ok (imagesFrom clock b 0 cs) ∧
      (∀ r ∈ imagesFrom clock b 0 cs, ∃ k d, r = imageResult b (clock k) k d ∧
        r.filename = some (mkFileName b (clock k) k ++ "." ++
          templateOpt (fileExtensionOf d.mimeType))) ∧
      (imagesFrom clock b 0 cs).Pairwise (fun r s => r.filename ≠ s.filename) := by
  intro clock b cs hall
  refine ⟨processGo_allImages clock b cs hall 0, ?_,
    imagesFrom_pairwise_filename clock b cs 0⟩
  intro r hr
  obtain ⟨k, d, _, hrk⟩ := mem_imagesFrom clock b cs 0 r hr
  exact ⟨k, d, hrk, by rw [hrk]; rfl⟩

/-- Witness for C4 on a concrete two-image stream. -/
theorem claim4_image_run_witness :
    (∀ c ∈ [chunkImagePng, chunkImageBogus], isImageChunk c) ∧
    (processAIResponse (fun k => 1700000000000 + k) "text_to_image"
        [chunkImagePng, chunkImageBogus] =
      .ok (imagesFrom (fun k => 1700000000000 + k) "text_to_image" 0
        [chunkImagePng, chunkImageBogus]) ∧
     (∀ r ∈ imagesFrom (fun k => 1700000000000 + k) "text_to_image" 0
        [chunkImagePng, chunkImageBogus], ∃ k d,
          r = imageResult "text_to_image" (1700000000000 + k) k d ∧
          r.filename = some (mkFileName "text_to_image" (1700000000000 + k) k ++ "." ++
            templateOpt (fileExtensionOf d.mimeType))) ∧
     (imagesFrom (fun k => 1700000000000 + k) "text_to_image" 0
        [chunkImagePng, chunkImageBogus]).Pairwise
          (fun r s => r.filename ≠ s.filename)) := by
  refine ⟨by decide, ?_⟩
  exact claim4_image_run (fun k => 1700000000000 + k) "text_to_image"
    [chunkImagePng, chunkImageBogus] (by decide)

/-- C5 (confirmed): an empty chunk stream yields an empty result list, and
whenever `processAIResponse` completes with an empty list both the netlify
and the server generate handlers respond 500 with the generic
`No content generated` error body — never a success response. -/
theorem claim5_empty_is_failure :
    (∀ (clock : Nat → Nat) (b : String), processAIResponse clock b [] = .ok []) ∧
    (∀ (p : String) (key : Option String) (clock : Nat → Nat)
        (upstream : ModelRequest → Except UpstreamError (List Chunk))
        (chunks : List Chunk),
      p ≠ "" → jsTruthy key = true →
      upstream (generateRequest p) = .ok chunks →
      processAIResponse clock "text_to_image" chunks = .ok [] →
      generateHandler "POST" (some p) key clock upstream =
        ⟨500, .errBody "No content generated" none none⟩) ∧
    (∀ (p : String) (key : Option String) (clock : Nat → Nat)
        (upstream : ModelRequest → Except UpstreamError (List Chunk))
        (chunks : List Chunk),
      p ≠ "" → jsTruthy key = true →
      upstream (generateRequest p) = .ok chunks →
      processAIResponseServer clock "text_to_image" chunks = .ok [] →
      generateHandlerServer (some p) key clock upstream =
        ⟨500, .errBody "No content generated" none none⟩) := by
  refine ⟨fun clock b => rfl, ?_, ?_⟩
  · intro p key clock upstream chunks hp hkey hup hproc
    simp [generateHandler, jsTruthy_some_of_ne p hp, hkey, hup, hproc]
  · intro p key clock upstream chunks hp hkey hup hproc
    simp [generateHandlerServer, jsTruthy_some_of_ne p hp, hkey, hup, hproc]

/-- Witness for C5: an upstream that yields no chunks produces the 500
response on both handlers. -/
theorem claim5_empty_is_failure_witness :
    ("a red circle" : String) ≠ "" ∧
    jsTruthy (some "key123") = true ∧
    (fun _ : ModelRequest => (.ok [] : Except UpstreamError (List Chunk)))
        (generateRequest "a red circle") = .ok [] ∧
    processAIResponse (fun k => k) "text_to_image" [] = .ok [] ∧
    processAIResponseServer (fun k => k) "text_to_image" [] = .ok [] ∧
    generateHandler "POST" (some "a red circle") (some "key123") (fun k => k)
        (fun _ => .ok []) = ⟨500, .errBody "No content generated" none none⟩ ∧
    generateHandlerServer (some "a red circle") (some "key123") (fun k => k)
        (fun _ => .ok []) = ⟨500, .errBody "No content generated" none none⟩ := by
  refine ⟨by decide, by decide, rfl, rfl, rfl, ?_, ?_⟩
  · exact claim5_empty_is_failure.2.1 "a red circle" (some "key123") (fun k => k)
      (fun _ => .ok []) [] (by decide) (by decide) rfl rfl
  · exact claim5_empty_is_failure.2.2 "a red circle" (some "key123") (fun k => k)
      (fun _ => .ok []) [] (by decide) (by decide) rfl rfl

/-- C6 (confirmed): a failure raised by the upstream model client is mapped
by its reported status — 429 to 429 with the retry-later hint, 401 to 401,
400 to 400 with the upstream message passed through (or the fixed fallback
when the message is falsy), and anything else (any other status, or no
status) to 500 with the endpoint's generic message.  Both handlers simply
return the mapped response: the upstream value is consulted exactly once
and no failure escapes the handler, which is a total function into
`HttpResponse`. -/
theorem claim6_upstream_error_mapping :
    ∀ (p : String) (key : Option String) (clock : Nat → Nat)
      (upstream : ModelRequest → Except UpstreamError (List Chunk))
      (e : UpstreamError),
      p ≠ "" → jsTruthy key = true →
      upstream (generateRequest p) = .error e →
      generateHandler "POST" (some p) key clock upstream =
        handleApiError e "Failed to generate image" ∧
      generateHandlerServer (some p) key clock upstream =
        handleApiError e "Failed to generate image" ∧
      (e.status = some 429 → handleApiError e "Failed to generate image" =
        ⟨429, .errBody "API rate limit exceeded"
          (some "You have exceeded the API rate limit. Please wait a few minutes and try again.")
          (some "Consider upgrading your API plan for higher limits.")⟩) ∧
      (e.status = some 401 → handleApiError e "Failed to generate image" =
        ⟨401, .errBody "Invalid API key"
          (some "Please check your GEMINI_API_KEY in the environment variables.") none⟩) ∧
      (e.status = some 400 → handleApiError e "Failed to generate image" =
        ⟨400, .errBody "Invalid request"
          (some (jsOr e.message "The request was malformed or invalid.")) none⟩) ∧
      (∀ s : Nat, e.status = some s → s ≠ 429 → s ≠ 401 → s ≠ 400 →
        handleApiError e "Failed to generate image" =
          ⟨500, .errBody "Failed to generate image" e.message none⟩) ∧
      (e.status = none → handleApiError e "Failed to generate image" =
        ⟨500, .errBody "Failed to generate image" e.message none⟩) := by
  intro p key clock upstream e hp hkey hup
  refine ⟨?_, ?_, ?_, ?_, ?_, ?_, ?_⟩
  · simp [generateHandler, jsTruthy_some_of_ne p hp, hkey, hup]
  · simp [generateHandlerServer, jsTruthy_some_of_ne p hp, hkey, hup]
  · intro h; simp [handleApiError, h]
  · intro h; simp [handleApiError, h]
  · intro h; simp [handleApiError, h]
  · intro s hs h1 h2 h3; simp [handleApiError, hs, h1, h2, h3]
  · intro h; simp [handleApiError, h]

/-- Witness for C6 at a concrete 429 failure. -/
theorem claim6_upstream_error_mapping_witness :
    ("x" : String) ≠ "" ∧
    jsTruthy (some "key123") = true ∧
    (fun _ : ModelRequest =>
        (.error ⟨some 429, some "quota"⟩ : Except UpstreamError (List Chunk)))
      (generateRequest "x") = .error ⟨some 429, some "quota"⟩ ∧
    generateHandler "POST" (some "x") (some "key123") (fun k => k)
        (fun _ => .error ⟨some 429, some "quota"⟩) =
      handleApiError ⟨some 429, some "quota"⟩ "Failed to generate image" ∧
    handleApiError ⟨some 429, some "quota"⟩ "Failed to generate image" =
      ⟨429, .errBody "API rate limit exceeded"
        (some "You have exceeded the API rate limit. Please wait a few minutes and try again.")
        (some "Consider upgrading your API plan for higher limits.")⟩ := by
  have h := claim6_upstream_error_mapping "x" (some "key123") (fun k => k)
    (fun _ => .error ⟨some 429, some "quota"⟩) ⟨some 429, some "quota"⟩
    (by decide) (by decide) rfl
  exact ⟨by decide, by decide, rfl, h.1, h.2.2.1 rfl⟩

/-- C7 (confirmed): a generate request without a prompt field is answered
400 `Prompt is required`, and a request with a (non-empty) prompt but the
`GEMINI_API_KEY` environment variable unset is answered 500
`GEMINI_API_KEY not configured` — in both deployments.  The response is the
same for *every* upstream function, which is the embedded statement that
the upstream client is never invoked on these paths: the code returns
before `ai.models.generateContentStream` is reached. -/
theorem claim7_request_validation :
    (∀ (key : Option String) (clock : Nat → Nat)
        (upstream : ModelRequest → Except UpstreamError (List Chunk)),
      generateHandler "POST" none key clock upstream =
        ⟨400, .errBody "Prompt is required" none none⟩) ∧
    (∀ (p : String) (clock : Nat → Nat)
        (upstream : ModelRequest → Except UpstreamError (List Chunk)),
      p ≠ "" →
      generateHandler "POST" (some p) none clock upstream =
        ⟨500, .errBody "GEMINI_API_KEY not configured" none none⟩) ∧
    (∀ (key : Option String) (clock : Nat → Nat)
        (upstream : ModelRequest → Except UpstreamError (List Chunk)),
      generateHandlerServer none key clock upstream =
        ⟨400, .errBody "Prompt is required" none none⟩) ∧
    (∀ (p : String) (clock : Nat → Nat)
        (upstream : ModelRequest → Except UpstreamError (List Chunk)),
      p ≠ "" →
      generateHandlerServer (some p) none clock upstream =
        ⟨500, .errBody "GEMINI_API_KEY not configured" none none⟩) := by
  refine ⟨?_, ?_, ?_, ?_⟩
  · intro key clock upstream; simp [generateHandler, jsTruthy]
  · intro p clock upstream hp
    simp [generateHandler, jsTruthy_some_of_ne p hp, jsTruthy, hp]
  · intro key clock upstream; simp [generateHandlerServer, jsTruthy]
  · intro p clock upstream hp
    simp [generateHandlerServer, jsTruthy_some_of_ne p hp, jsTruthy, hp]

/-- Witness for C7: two concrete upstream functions that differ wildly
produce the same validation responses. -/
theorem claim7_request_validation_witness :
    generateHandler "POST" none (some "key123") (fun k => k)
        (fun _ => .error ⟨some 429, none⟩) =
      ⟨400, .errBody "Prompt is required" none none⟩ ∧
    ("a red circle" : String) ≠ "" ∧
    generateHandler "POST" (some "a red circle") none (fun k => k)
        (fun _ => .ok [chunkTextHello]) =
      ⟨500, .errBody "GEMINI_API_KEY not configured" none none⟩ ∧
    generateHandlerServer none (some "key123") (fun k => k)
        (fun _ => .ok []) =
      ⟨400, .errBody "Prompt is required" none none⟩ ∧
    generateHandlerServer (some "a red circle") none (fun k => k)
        (fun _ => .error ⟨none, some "boom"⟩) =
      ⟨500, .errBody "GEMINI_API_KEY not configured" none none⟩ := by
  refine ⟨?_, by decide, ?_, ?_, ?_⟩
  · exact claim7_request_validation.1 (some "key123") (fun k => k)
      (fun _ => .error ⟨some 429, none⟩)
  · exact claim7_request_validation.2.1 "a red circle" (fun k => k)
      (fun _ => .ok [chunkTextHello]) (by decide)
  · exact claim7_request_validation.2.2.1 (some "key123") (fun k => k)
      (fun _ => .ok [])
  · exact claim7_request_validation.2.2.2 "a red circle" (fun k => k)
      (fun _ => .error ⟨none, some "boom"⟩) (by decide)

/-- C8, counterexample. The claim asserts every image result carries a
`filename` field in *both* deployments.  In the disk-writing server
deployment, lines 77-81 of server.js push `{type, url, mimeType}` only:
the result object of a processed `image/png` chunk has no `filename`
field (the generated name survives only inside the `url`). -/
theorem claim8_counterexample :
    processAIResponseServer (fun _ => 0) "generated_image" [chunkImagePng] =
      .ok [imageResultServer "generated_image" 0 0 ⟨some "image/png", some "AAAA"⟩] ∧
    (imageResultServer "generated_image" 0 0 ⟨some "image/png", some "AAAA"⟩).type =
      "image" ∧
    (imageResultServer "generated_image" 0 0 ⟨some "image/png", some "AAAA"⟩).filename =
      none := by
  exact ⟨rfl, rfl, rfl⟩

/-- C8 (amended): every success response body has the shape
`{success: true, prompt, results}` in both deployments.  In the
stateless-function deployment each image result carries the `"image"` tag,
`data`, `mimeType` and `filename` fields (given the stream's inline
payloads declare data and media type) and each text result the `"text"`
tag and a `content` field.  In the disk-writing server deployment each
image result carries the `"image"` tag, a `url` and a `mimeType` field but
*no* `filename` field; text results are as before. -/
theorem claim8_response_shape :
    (∀ (p : String) (key : Option String) (clock : Nat → Nat)
        (upstream : ModelRequest → Except UpstreamError (List Chunk))
        (chunks : List Chunk) (results : List ResultObj),
      p ≠ "" → jsTruthy key = true →
      upstream (generateRequest p) = .ok chunks →
      processAIResponse clock "text_to_image" chunks = .ok results →
      results ≠ [] →
      generateHandler "POST" (some p) key clock upstream =
        ⟨200, .okGenerate p results⟩) ∧
    (∀ (clock : Nat → Nat) (b : String) (cs : List Chunk) (results : List ResultObj),
      (∀ c ∈ cs, declaresInlineFields c) →
      processAIResponse clock b cs = .ok results →
      ∀ r ∈ results,
        (r.type = "image" →
          r.data.isSome ∧ r.mimeType.isSome ∧ r.filename.isSome ∧
          r.url = none ∧ r.content = none) ∧
        (r.type = "text" → r.content.isSome ∧ r.data = none ∧ r.url = none ∧
          r.mimeType = none ∧ r.filename = none)) ∧
    (∀ (p : String) (key : Option String) (clock : Nat → Nat)
        (upstream : ModelRequest → Except UpstreamError (List Chunk))
        (chunks : List Chunk) (results : List ResultObj),
      p ≠ "" → jsTruthy key = true →
      upstream (generateRequest p) = .ok chunks →
      processAIResponseServer clock "text_to_image" chunks = .ok results →
      results ≠ [] →
      generateHandlerServer (some p) key clock upstream =
        ⟨200, .okGenerate p results⟩) ∧
    (∀ (clock : Nat → Nat) (b : String) (cs : List Chunk) (results : List ResultObj),
      (∀ c ∈ cs, declaresMediaType c) →
      processAIResponseServer clock b cs = .ok results →
      ∀ r ∈ results,
        (r.type = "image" →
          r.url.isSome ∧ r.mimeType.isSome ∧ r.filename = none ∧
          r.data = none ∧ r.content = none) ∧
        (r.type = "text" → r.content.isSome ∧ r.data = none ∧ r.url = none ∧
          r.mimeType = none ∧ r.filename = none)) := by
  refine ⟨?_, ?_, ?_, ?_⟩
  · intro p key clock upstream chunks results hp hkey hup hproc hne
    cases results with
    | nil => exact absurd rfl hne
    | cons r rs =>
      simp [generateHandler, jsTruthy_some_of_ne p hp, hkey, hup, hproc]
  · intro clock b cs results hwf hproc
    exact processGo_shape clock b cs 0 results hwf hproc
  · intro p key clock upstream chunks results hp hkey hup hproc hne
    cases results with
    | nil => exact absurd rfl hne
    | cons r rs =>
      simp [generateHandlerServer, jsTruthy_some_of_ne p hp, hkey, hup, hproc]
  · intro clock b cs results hwf hproc
    exact processGoServer_shape clock b cs 0 results hwf hproc

/-- Witness for C8: a stream of one png chunk and one text chunk through
the netlify generate handler. -/
theorem claim8_response_shape_witness :
    ("a red circle" : String) ≠ "" ∧
    jsTruthy (some "key123") = true ∧
    (fun _ : ModelRequest =>
        (.ok [chunkImagePng, chunkTextHello] : Except UpstreamError (List Chunk)))
      (generateRequest "a red circle") = .ok [chunkImagePng, chunkTextHello] ∧
    processAIResponse (fun _ => 7) "text_to_image" [chunkImagePng, chunkTextHello] =
      .ok [imageResult "text_to_image" 7 0 ⟨some "image/png", some "AAAA"⟩,
           mkTextResult "hello"] ∧
    ([imageResult "text_to_image" 7 0 ⟨some "image/png", some "AAAA"⟩,
      mkTextResult "hello"] : List ResultObj) ≠ [] ∧
    generateHandler "POST" (some "a red circle") (some "key123") (fun _ => 7)
        (fun _ => .ok [chunkImagePng, chunkTextHello]) =
      ⟨200, .okGenerate "a red circle"
        [imageResult "text_to_image" 7 0 ⟨some "image/png", some "AAAA"⟩,
         mkTextResult "hello"]⟩ ∧
    (∀ c ∈ [chunkImagePng, chunkTextHello], declaresInlineFields c) ∧
    (∀ r ∈ [imageResult "text_to_image" 7 0 ⟨some "image/png", some "AAAA"⟩,
            mkTextResult "hello"],
      (r.type = "image" →
        r.data.isSome ∧ r.mimeType.isSome ∧ r.filename.isSome ∧
        r.url = none ∧ r.content = none) ∧
      (r.type = "text" → r.content.isSome ∧ r.data = none ∧ r.url = none ∧
        r.mimeType = none ∧ r.filename = none)) := by
  refine ⟨by decide, by decide, rfl, rfl, by simp, ?_, by decide, ?_⟩
  · exact claim8_response_shape.1 "a red circle" (some "key123") (fun _ => 7)
      (fun _ => .ok [chunkImagePng, chunkTextHello]) [chunkImagePng, chunkTextHello]
      [imageResult "text_to_image" 7 0 ⟨some "image/png", some "AAAA"⟩,
       mkTextResult "hello"] (by decide) (by decide) rfl rfl (by simp)
  · exact claim8_response_shape.2.1 (fun _ => 7) "text_to_image"
      [chunkImagePng, chunkTextHello]
      [imageResult "text_to_image" 7 0 ⟨some "image/png", some "AAAA"⟩,
       mkTextResult "hello"] (by decide) rfl

/-- C9 (confirmed): a manipulate request whose form data carries a
(non-empty) prompt but no image field is answered 400
`Image file is required` in both deployments, and the response is the same
for every upstream function — the embedded statement that the upstream
client is never invoked: the handler returns before
`ai.models.generateContentStream` is reached.  (A form whose prompt field
is present but empty is caught by the earlier prompt check instead.) -/
theorem claim9_missing_image :
    (∀ (p : String) (key : Option String) (clock : Nat → Nat)
        (upstream : ModelRequest → Except UpstreamError (List Chunk)),
      p ≠ "" →
      manipulateHandler (some p) none key clock upstream =
        ⟨400, .errBody "Image file is required" none none⟩) ∧
    (∀ (p : String) (key : Option String) (clock : Nat → Nat)
        (upstream : ModelRequest → Except UpstreamError (List Chunk)),
      p ≠ "" →
      manipulateHandlerServer (some p) none key clock upstream =
        ⟨400, .errBody "Image file is required" none none⟩) := by
  constructor
  · intro p key clock upstream hp
    simp [manipulateHandler, jsTruthy_some_of_ne p hp]
  · intro p key clock upstream hp
    simp [manipulateHandlerServer, jsTruthy_some_of_ne p hp]

/-- Witness for C9 with two different upstream functions. -/
theorem claim9_missing_image_witness :
    ("add a rainbow" : String) ≠ "" ∧
    manipulateHandler (some "add a rainbow") none (some "key123") (fun k => k)
        (fun _ => .error ⟨some 429, none⟩) =
      ⟨400, .errBody "Image file is required" none none⟩ ∧
    manipulateHandlerServer (some "add a rainbow") none (some "key123") (fun k => k)
        (fun _ => .ok [chunkImagePng]) =
      ⟨400, .errBody "Image file is required" none none⟩ := by
  refine ⟨by decide, ?_, ?_⟩
  · exact claim9_missing_image.1 "add a rainbow" (some "key123") (fun k => k)
      (fun _ => .error ⟨some 429, none⟩) (by decide)
  · exact claim9_missing_image.2 "add a rainbow" (some "key123") (fun k => k)
      (fun _ => .ok [chunkImagePng]) (by decide)

/-- C10 (confirmed): the text part sent upstream by the manipulate
handlers is `Based on the uploaded image, ` concatenated with the
submitted prompt — never the prompt verbatim, since the concatenation is
29 characters longer — while the prompt echoed in the success response
body is the original prompt, in both deployments. -/
theorem claim10_prompt_augmented :
    (∀ (p : String) (img : FormImage),
      manipulateRequest p img =
        ⟨"gemini-2.5-flash-image-preview", ["IMAGE", "TEXT"],
          [⟨"user", [⟨some ("Based on the uploaded image, " ++ p), none⟩,
                     ⟨none, some ⟨some img.mimeType, some img.data⟩⟩]⟩]⟩) ∧
    (∀ (p : String) (f : UploadFile),
      manipulateRequestServer p f =
        ⟨"gemini-2.5-flash-image-preview", ["IMAGE", "TEXT"],
          [⟨"user", [⟨some ("Based on the uploaded image, " ++ p), none⟩,
                     ⟨none, some ⟨some f.mimetype, some f.bufferB64⟩⟩]⟩]⟩) ∧
    (∀ p : String, "Based on the uploaded image, " ++ p ≠ p) ∧
    (∀ (p : String) (img : FormImage) (key : Option String) (clock : Nat → Nat)
        (upstream : ModelRequest → Except UpstreamError (List Chunk))
        (chunks : List Chunk) (results : List ResultObj),
      p ≠ "" → jsTruthy key = true →
      upstream (manipulateRequest p img) = .ok chunks →
      processAIResponse clock "image_manipulation" chunks = .ok results →
      results ≠ [] →
      manipulateHandler (some p) (some img) key clock upstream =
        ⟨200, .okManipulate p img.mimeType results⟩) ∧
    (∀ (p : String) (f : UploadFile) (key : Option String) (clock : Nat → Nat)
        (upstream : ModelRequest → Except UpstreamError (List Chunk))
        (chunks : List Chunk) (results : List ResultObj),
      p ≠ "" → jsTruthy key = true →
      upstream (manipulateRequestServer p f) = .ok chunks →
      processAIResponseServer clock "image_manipulation" chunks = .ok results →
      results ≠ [] →
      manipulateHandlerServer (some p) (some f) key clock upstream =
        ⟨200, .okManipulateServer p f.originalname f.size f.mimetype results⟩) := by
  refine ⟨fun p img => rfl, fun p f => rfl, ?_, ?_, ?_⟩
  · intro p h
    have hlen := congrArg String.length h
    rw [String.length_append] at hlen
    have h29 : ("Based on the uploaded image, " : String).length = 29 := rfl
    omega
  · intro p img key clock upstream chunks results hp hkey hup hproc hne
    cases results with
    | nil => exact absurd rfl hne
    | cons r rs =>
      simp [manipulateHandler, jsTruthy_some_of_ne p hp, hkey, hup, hproc]
  · intro p f key clock upstream chunks results hp hkey hup hproc hne
    cases results with
    | nil => exact absurd rfl hne
    | cons r rs =>
      simp [manipulateHandlerServer, jsTruthy_some_of_ne p hp, hkey, hup, hproc]

/-- Witness for C10 at the prompt `add a rainbow`. -/
theorem claim10_prompt_augmented_witness :
    "Based on the uploaded image, " ++ "add a rainbow" ≠ "add a rainbow" ∧
    ("add a rainbow" : String) ≠ "" ∧
    jsTruthy (some "key123") = true ∧
    (fun _ : ModelRequest =>
        (.ok [chunkTextHello] : Except UpstreamError (List Chunk)))
      (manipulateRequest "add a rainbow" ⟨"image/png", "Zm9v"⟩) =
        .ok [chunkTextHello] ∧
    processAIResponse (fun k => k) "image_manipulation" [chunkTextHello] =
      .ok [mkTextResult "hello"] ∧
    ([mkTextResult "hello"] : List ResultObj) ≠ [] ∧
    manipulateHandler (some "add a rainbow") (some ⟨"image/png", "Zm9v"⟩)
        (some "key123") (fun k => k) (fun _ => .ok [chunkTextHello]) =
      ⟨200, .okManipulate "add a rainbow" "image/png" [mkTextResult "hello"]⟩ := by
  refine ⟨claim10_prompt_augmented.2.2.1 "add a rainbow", by decide, by decide,
    rfl, rfl, by simp, ?_⟩
  exact claim10_prompt_augmented.2.2.2.1 "add a rainbow" ⟨"image/png", "Zm9v"⟩
    (some "key123") (fun k => k) (fun _ => .ok [chunkTextHello]) [chunkTextHello]
    [mkTextResult "hello"] (by decide) (by decide) rfl rfl (by simp)

end VibeGemini
